import Mathlib

/-!
Verification development for the `smqtk_detection` object-detector interface
module (`smqtk_detection/interfaces/object_detector.py`).

The module is embedded shallowly:

* Python strings are `String`, integers are `Int`/`Nat`, dictionaries are
  association lists in insertion order, iterators are `List`s.
* Python code that can raise is embedded as `Except PyError`.
* `detect_objects` contains a `yield` statement, so in Python it is a
  generator function: calling it allocates a suspended generator and runs
  none of the body.  The embedding therefore separates the call itself
  (`ObjectDetector.detect_objects`, which always returns a generator object)
  from driving the generator to exhaustion
  (`ObjectDetector.detect_objects_run`).
* `hashlib.sha1(...).hexdigest()` is embedded by an executable SHA-1 over
  byte lists (32-bit words are `Nat` with explicit reduction mod 2^32),
  checked below against the standard test vectors.
* Python `sorted` on strings (lexicographic by code point) is embedded as
  insertion sort under the code-point order `strLeP`, which is proved total,
  transitive and antisymmetric, so the sorted output is the canonical one.
* `str` on a Python integer is embedded as the plain decimal rendering
  `str_int`, proved injective below.
-/

/-! ### Code-point order on strings and Python sorted -/

/-- Lexicographic less-or-equal on char lists by code point, as Python
compares strings. -/
def charListLe : List Char → List Char → Bool
  | [], _ => true
  | _ :: _, [] => false
  | a :: as, b :: bs =>
    if a.toNat < b.toNat then true
    else if b.toNat < a.toNat then false
    else charListLe as bs

/-- Boolean code-point order on strings. -/
def strLeB (a b : String) : Bool := charListLe a.data b.data

/-- Propositional form of `strLeB`, for use with `List.insertionSort`. -/
def strLeP (a b : String) : Prop := strLeB a b = true

instance : DecidableRel strLeP := fun a b => instDecidableEqBool (strLeB a b) true

/-- Embedding of Python `sorted` on a list of strings. -/
def sortStrings (l : List String) : List String := l.insertionSort strLeP

/-! ### SHA-1, as used by hashlib.sha1(...).hexdigest() -/

/-- Rotate a 32-bit word (a `Nat` below 2^32) left by `n` bits. -/
def rotl32 (n w : Nat) : Nat :=
  ((w <<< n) ||| (w >>> (32 - n))) % 4294967296

/-- UTF-8 encoding of a single character, as bytes(s, "utf8") produces. -/
def utf8Bytes (c : Char) : List Nat :=
  let n := c.toNat
  if n < 128 then [n]
  else if n < 2048 then [192 ||| (n >>> 6), 128 ||| (n % 64)]
  else if n < 65536 then
    [224 ||| (n >>> 12), 128 ||| ((n >>> 6) % 64), 128 ||| (n % 64)]
  else
    [240 ||| (n >>> 18), 128 ||| ((n >>> 12) % 64), 128 ||| ((n >>> 6) % 64),
     128 ||| (n % 64)]

/-- UTF-8 byte sequence of a string. -/
def strBytes (s : String) : List Nat :=
  s.data.flatMap utf8Bytes

/-- SHA-1 message padding: append the 0x80 marker, zero padding to 56 mod 64,
and the 64-bit big-endian bit length. -/
def sha1Pad (msg : List Nat) : List Nat :=
  let ml := 8 * msg.length
  let padLen := (55 + 64 - msg.length % 64) % 64 + 1
  msg ++ [128] ++ List.replicate (padLen - 1) 0 ++
    (List.range 8).map (fun i => (ml >>> (8 * (7 - i))) % 256)

/-- Big-endian 32-bit words of a byte list. -/
def wordsOfBytes : List Nat → List Nat
  | b0 :: b1 :: b2 :: b3 :: rest =>
      (b0 <<< 24 ||| b1 <<< 16 ||| b2 <<< 8 ||| b3) :: wordsOfBytes rest
  | _ => []

/-- Extend the 16-word schedule by the given number of additional words. -/
def extendW (w : List Nat) : Nat → List Nat
  | 0 => w
  | k + 1 =>
      let w' := extendW w k
      let i := w'.length
      w' ++ [rotl32 1 ((((w'.getD (i - 3) 0) ^^^ (w'.getD (i - 8) 0)) ^^^
             (w'.getD (i - 14) 0)) ^^^ (w'.getD (i - 16) 0))]

/-- SHA-1 round function for round `t`. -/
def sha1F (t b c d : Nat) : Nat :=
  if t < 20 then (b &&& c) ||| ((b ^^^ 4294967295) &&& d)
  else if t < 40 then (b ^^^ c) ^^^ d
  else if t < 60 then ((b &&& c) ||| (b &&& d)) ||| (c &&& d)
  else (b ^^^ c) ^^^ d

/-- SHA-1 round constant for round `t`. -/
def sha1K (t : Nat) : Nat :=
  if t < 20 then 1518500249
  else if t < 40 then 1859775393
  else if t < 60 then 2400959708
  else 3395469782

/-- Process one 64-byte chunk, updating the five-word state. -/
def sha1Chunk (h : Nat × Nat × Nat × Nat × Nat) (chunk : List Nat) :
    Nat × Nat × Nat × Nat × Nat :=
  let w := extendW (wordsOfBytes chunk) 64
  let fin := (List.range 80).foldl
    (fun st t =>
      let temp := (rotl32 5 st.1 + sha1F t st.2.1 st.2.2.1 st.2.2.2.1 +
        st.2.2.2.2 + sha1K t + w.getD t 0) % 4294967296
      (temp, st.1, rotl32 30 st.2.1, st.2.2.1, st.2.2.2.1))
    h
  ((h.1 + fin.1) % 4294967296,
   (h.2.1 + fin.2.1) % 4294967296,
   (h.2.2.1 + fin.2.2.1) % 4294967296,
   (h.2.2.2.1 + fin.2.2.2.1) % 4294967296,
   (h.2.2.2.2 + fin.2.2.2.2) % 4294967296)

/-- Split a byte list into 64-byte chunks.  The first argument is fuel,
instantiated with the list length so the recursion is structural. -/
def chunks64Go : Nat → List Nat → List (List Nat)
  | _, [] => []
  | 0, _ => []
  | fuel + 1, a :: rest =>
      ((a :: rest).take 64) :: chunks64Go fuel ((a :: rest).drop 64)

/-- Split a byte list into 64-byte chunks. -/
def chunks64 (l : List Nat) : List (List Nat) := chunks64Go l.length l

/-- Lower-case hex digit for a value below 16. -/
def hexDigit (n : Nat) : Char :=
  if n < 10 then Char.ofNat (48 + n) else Char.ofNat (87 + n)

/-- Eight lower-case hex digits of a 32-bit word, most significant first. -/
def hexWord (w : Nat) : List Char :=
  (List.range 8).map (fun i => hexDigit ((w >>> (4 * (7 - i))) % 16))

/-- Embedding of hashlib.sha1(bytes(s, "utf8")).hexdigest(). -/
def sha1hex (s : String) : String :=
  let chunks := chunks64 (sha1Pad (strBytes s))
  let h := chunks.foldl sha1Chunk
    (1732584193, 4023233417, 2562383102, 271733878, 3285377520)
  String.mk (hexWord h.1 ++ hexWord h.2.1 ++ hexWord h.2.2.1 ++
    hexWord h.2.2.2.1 ++ hexWord h.2.2.2.2)

/-! ### Decimal rendering of integers, as Python str() -/

/-- Decimal digit characters. -/
def digitChar : Nat → Char
  | 0 => '0' | 1 => '1' | 2 => '2' | 3 => '3' | 4 => '4'
  | 5 => '5' | 6 => '6' | 7 => '7' | 8 => '8' | _ => '9'

/-- Little-endian decimal digits of a natural number; the first argument is
fuel, instantiated so the recursion is structural. -/
def natDigitsGo : Nat → Nat → List Nat
  | 0, _ => []
  | fuel + 1, n => if n < 10 then [n] else n % 10 :: natDigitsGo fuel (n / 10)

/-- Little-endian decimal digits of a natural number. -/
def natDigits (n : Nat) : List Nat := natDigitsGo (n + 1) n

/-- Characters of the decimal rendering of a natural number. -/
def natStrChars (n : Nat) : List Char := ((natDigits n).reverse).map digitChar

/-- Embedding of Python str() on an integer: sign followed by decimal
digits, no separators, locale independent. -/
def str_int : Int → String
  | .ofNat n => String.mk (natStrChars n)
  | .negSucc m => String.mk ('-' :: natStrChars (m + 1))

/-- Value of a little-endian digit list. -/
def decodeLE : List Nat → Nat
  | [] => 0
  | d :: ds => d + 10 * decodeLE ds

/-! ### Data model

Embeddings of the data types the detector interface manipulates.
Classification labels are modelled as strings (the typical hashable label;
the str() coercion applied by the identity function is then the identity),
probabilities as rationals, bounding-box vertex components as integers
(numpy tolist() on an integral array). -/

/-- Embedding of smqtk_image_io.AxisAlignedBoundingBox: a minimum and a
maximum vertex, each an ordered tuple of numeric coordinates. -/
structure AxisAlignedBoundingBox where
  min_vertex : List Int
  max_vertex : List Int
deriving DecidableEq

/-- Embedding of a DataElement as the detector observes it: a content type
and the string rendering of its uuid (a checksum-derived value; the code
applies str() to it, so it is modelled directly as a string). -/
structure DataElement where
  content_type : String
  uuid : String
deriving DecidableEq

/-- Embedding of a ClassificationElement: the type tag and uuid it was
created from, and the label-to-probability map stored into it by
set_classification (an association list in insertion order). -/
structure ClassificationElement where
  type_name : String
  uuid : String
  classification : List (String × Rat)
deriving DecidableEq

/-- Embedding of a DetectionElement: the uuid it was created from and the
payload stored by set_detection, if any. -/
structure DetectionElement where
  uuid : String
  detection : Option (AxisAlignedBoundingBox × ClassificationElement)
deriving DecidableEq

/-- Embedding of set_classification: store the given classification map. -/
def ClassificationElement.set_classification (ce : ClassificationElement)
    (m : List (String × Rat)) : ClassificationElement :=
  { ce with classification := m }

/-- Embedding of set_detection: store the given bounding box and
classification element and return the element itself. -/
def DetectionElement.set_detection (de : DetectionElement)
    (bbox : AxisAlignedBoundingBox) (ce : ClassificationElement) :
    DetectionElement :=
  { de with detection := some (bbox, ce) }

/-- Modelled from the spec: the Classification Factory collaborator of
section 6, new_classification(type_tag, id) -> ClassificationRecord.  The
factory is an arbitrary constructor function; the contract that the record
carries the given type tag and identifier is stated as a hypothesis where a
theorem needs it. -/
structure ClassificationElementFactory where
  new_classification : String → String → ClassificationElement

/-- Modelled from the spec: the Detection Factory collaborator of
section 6, new_detection(id) -> DetectionRecord. -/
structure DetectionElementFactory where
  new_detection : String → DetectionElement

/-- The default memory-based classification factory
(DFLT_CLASSIFIER_FACTORY): builds an element carrying the given type tag
and uuid with an empty map. -/
def DFLT_CLASSIFIER_FACTORY : ClassificationElementFactory :=
  ⟨fun t u => ⟨t, u, []⟩⟩

/-- The default memory-based detection factory (DFLT_DETECTION_FACTORY):
builds an element carrying the given uuid with no detection set yet. -/
def DFLT_DETECTION_FACTORY : DetectionElementFactory :=
  ⟨fun u => ⟨u, none⟩⟩

/-- Python exception kinds raised by the embedded code paths. -/
inductive PyError
  | valueError
  | indexError
deriving DecidableEq

instance {ε α : Type} [DecidableEq ε] [DecidableEq α] :
    DecidableEq (Except ε α) := fun x y =>
  match x, y with
  | .error a, .error b =>
      if h : a = b then .isTrue (by rw [h])
      else .isFalse (fun he => h (Except.error.inj he))
  | .ok a, .ok b =>
      if h : a = b then .isTrue (by rw [h])
      else .isFalse (fun he => h (Except.ok.inj he))
  | .error _, .ok _ => .isFalse (fun he => Except.noConfusion he)
  | .ok _, .error _ => .isFalse (fun he => Except.noConfusion he)

/-! ### The detection identity function -/

/-- Embedding of the four-placeholder format call on the concatenated
vertex components (object_detector.py lines 64 to 66): str.format with four
placeholders consumes exactly the first four variadic arguments, ignores
any extras, and raises IndexError when fewer than four are supplied. -/
def format4 : List Int → Except PyError String
  | c0 :: c1 :: c2 :: c3 :: _ =>
      .ok (String.mk ((str_int c0).data ++ (str_int c1).data ++
        (str_int c2).data ++ (str_int c3).data))
  | _ => .error .indexError

/-- The local variable hashable of _gen_detection_uuid (lines 64 to 67):
the data uuid, then the formatted vertex components, then the sorted
string-coerced labels joined with no separator. -/
def detection_uuid_hashable (data_uuid : String)
    (bbox : AxisAlignedBoundingBox) (labels : List String) :
    Except PyError String :=
  match format4 (bbox.min_vertex ++ bbox.max_vertex) with
  | .error e => .error e
  | .ok verts =>
      .ok (data_uuid ++ verts ++ String.join (sortStrings labels))

/-- Embedding of ObjectDetector._gen_detection_uuid (lines 44 to 68): the
hex-encoded SHA-1 digest of the UTF-8 bytes of the hashable string. -/
def _gen_detection_uuid (data_uuid : String)
    (bbox : AxisAlignedBoundingBox) (labels : List String) :
    Except PyError String :=
  (detection_uuid_hashable data_uuid bbox labels).map sha1hex

/-! ### The object detector base abstraction -/

/-- Embedding of the ObjectDetector interface: the set of accepted content
types (from the ContentTypeValidator capability) and the abstract
raw-detection step _detect_objects, which a concrete algorithm supplies.
A returned none is the decode-failure or cannot-proceed signal; a returned
list holds the raw (bounding box, classification map) pairs in yield
order. -/
structure ObjectDetector where
  valid_content_types : List String
  _detect_objects :
    DataElement → Option (List (AxisAlignedBoundingBox × List (String × Rat)))

/-- Modelled from the spec: the Content Validator capability of section 6,
is_valid_element(data) reports whether the element's content type is among
valid_content_types. -/
def ObjectDetector.is_valid_element (self : ObjectDetector)
    (data_element : DataElement) : Bool :=
  self.valid_content_types.contains data_element.content_type

/-- Modelled from the spec: the Content Validator capability of section 6,
raise_valid_element(data) raises ValueError when the element's content type
is not accepted. -/
def ObjectDetector.raise_valid_element (self : ObjectDetector)
    (data_element : DataElement) : Except PyError Unit :=
  if self.is_valid_element data_element then .ok () else .error .valueError

/-- The per-pair body of the for-loop of detect_objects (lines 115 to 123),
run over the whole raw sequence: derive the detection uuid from the bbox
and the classification map's keys, build the classification element with
the constant type tag, populate it, build the detection element and
populate it via set_detection.  An exception inside the loop (IndexError
from the uuid derivation) aborts the iteration. -/
def detect_objects_loop (de_uuid : String)
    (de_factory : DetectionElementFactory)
    (ce_factory : ClassificationElementFactory) :
    List (AxisAlignedBoundingBox × List (String × Rat)) →
      Except PyError (List DetectionElement)
  | [] => .ok []
  | (bbox, c_map) :: rest =>
    match _gen_detection_uuid de_uuid bbox (c_map.map Prod.fst) with
    | .error e => .error e
    | .ok det_uuid =>
      let ce := (ce_factory.new_classification
        "object detection classification" det_uuid).set_classification c_map
      let de := (de_factory.new_detection det_uuid).set_detection bbox ce
      match detect_objects_loop de_uuid de_factory ce_factory rest with
      | .error e => .error e
      | .ok l => .ok (de :: l)

/-- The body of detect_objects (lines 105 to 123) as observed when the
returned generator is driven to exhaustion: validate the content type
first, then invoke the raw-detection step; a none from the raw step makes
the generator body execute a bare return, which in a generator merely ends
the iteration, so the driver observes an empty list of yields. -/
def ObjectDetector.detect_objects_run (self : ObjectDetector)
    (data_element : DataElement) (de_factory : DetectionElementFactory)
    (ce_factory : ClassificationElementFactory) :
    Except PyError (List DetectionElement) :=
  match self.raise_valid_element data_element with
  | .error e => .error e
  | .ok _ =>
    let de_uuid := data_element.uuid
    match self._detect_objects data_element with
    | none => .ok []
    | some dets => detect_objects_loop de_uuid de_factory ce_factory dets

/-- Embedding of the call ObjectDetector.detect_objects(data, de_factory,
ce_factory) itself (lines 70 to 123).  Because the body contains yield,
Python makes the function a generator function: the call always returns a
freshly built generator object (never None, and raising nothing), whose
body runs only when the generator is iterated.  The returned generator is
modelled as the thunk of driving the body to exhaustion. -/
def ObjectDetector.detect_objects (self : ObjectDetector)
    (data_element : DataElement) (de_factory : DetectionElementFactory)
    (ce_factory : ClassificationElementFactory) :
    Option (Unit → Except PyError (List DetectionElement)) :=
  some (fun _ => self.detect_objects_run data_element de_factory ce_factory)

/-! ### The image-matrix specialization -/

/-- Decoded pixel matrix, produced by the Image Reader collaborator. -/
abbrev PixelMatrix := List (List Int)

/-- Modelled from the spec: the Image Reader capability of section 6, with
its content-type reporting, element validity check and matrix decoding
(load_as_matrix returns none when the element cannot be decoded). -/
structure ImageReader where
  valid_content_types : List String
  is_valid_element : DataElement → Bool
  load_as_matrix : DataElement → Option PixelMatrix

/-- Embedding of the ImageMatrixObjectDetector subclass (lines 150 to 340):
it holds an ImageReader instance and the abstract matrix-based raw
detection step _detect_objects_matrix. -/
structure ImageMatrixObjectDetector where
  image_reader : ImageReader
  _detect_objects_matrix :
    PixelMatrix → List (AxisAlignedBoundingBox × List (String × Rat))

/-- Embedding of ImageMatrixObjectDetector.valid_content_types (lines 262
to 268): delegate to the stored image reader. -/
def ImageMatrixObjectDetector.valid_content_types
    (self : ImageMatrixObjectDetector) : List String :=
  self.image_reader.valid_content_types

/-- Embedding of ImageMatrixObjectDetector.is_valid_element (lines 270 to
285): delegate to the stored image reader. -/
def ImageMatrixObjectDetector.is_valid_element
    (self : ImageMatrixObjectDetector) (data_element : DataElement) : Bool :=
  self.image_reader.is_valid_element data_element

/-- Embedding of ImageMatrixObjectDetector._detect_objects (lines 287 to
318): load the element as a matrix via the image reader; propagate a none
result, otherwise hand the matrix unchanged to _detect_objects_matrix. -/
def ImageMatrixObjectDetector._detect_objects
    (self : ImageMatrixObjectDetector) (data : DataElement) :
    Option (List (AxisAlignedBoundingBox × List (String × Rat))) :=
  match self.image_reader.load_as_matrix data with
  | none => none
  | some mat => some (self._detect_objects_matrix mat)

/-! ### Configuration dictionaries for from_config

Python dictionaries are mutable heap objects; to state what from_config
does and does not mutate, dictionaries live on an explicit heap of
references.  Entry values are a type parameter (JSON-like configuration
values and constructed ImageReader instances both occur). -/

/-- A Python dictionary: entries in insertion order with unique keys. -/
structure PyDict (α : Type) where
  entries : List (String × α)

/-- A reference to a dictionary on the heap. -/
abbrev Ref := Nat

/-- A heap of dictionaries. -/
abbrev Heap (α : Type) := List (Ref × PyDict α)

/-- Dictionary lookup, dict.get(k) / dict[k]. -/
def PyDict.get? {α : Type} (d : PyDict α) (k : String) : Option α :=
  match d.entries.find? (fun p => p.1 == k) with
  | some p => some p.2
  | none => none

/-- Entry update for dict[k] = v: replace the value of an existing key in
place, else append a new entry. -/
def dictSetEntries {α : Type} :
    List (String × α) → String → α → List (String × α)
  | [], k, v => [(k, v)]
  | (k', v') :: rest, k, v =>
      if k' == k then (k', v) :: rest else (k', v') :: dictSetEntries rest k v

/-- Embedding of dict[k] = v. -/
def PyDict.set {α : Type} (d : PyDict α) (k : String) (v : α) : PyDict α :=
  ⟨dictSetEntries d.entries k v⟩

/-- Heap lookup of a dictionary reference. -/
def heapGet {α : Type} (h : Heap α) (r : Ref) : Option (PyDict α) :=
  match h.find? (fun p => p.1 == r) with
  | some p => some p.2
  | none => none

/-- A reference not yet used by the heap. -/
def freshRef {α : Type} (h : Heap α) : Ref :=
  h.foldr (fun p acc => max (p.1 + 1) acc) 0

/-- In-place mutation of the dictionary behind a reference. -/
def heapSet {α : Type} (h : Heap α) (r : Ref) (k : String) (v : α) : Heap α :=
  h.map (fun p => if p.1 == r then (p.1, p.2.set k v) else p)

/-- Embedding of ImageMatrixObjectDetector.from_config (lines 189 to 222)
up to the final super() call: shallow-copy the given dictionary (dict(
config_dict) allocates a fresh dictionary with the same top-level entries),
then assign into the copy the image reader constructed from the nested
block (config_dict.get with an empty-dict default, resolved by
from_config_dict, abstracted here as the resolve argument).  Returns the
updated heap and the reference handed to super().from_config. -/
def ImageMatrixObjectDetector.from_config {α : Type} (h : Heap α)
    (config_dict : Ref) (resolve : Option α → α) : Heap α × Ref :=
  let d := (heapGet h config_dict).getD ⟨[]⟩
  let copyRef := freshRef h
  let h1 := (copyRef, d) :: h
  let h2 := heapSet h1 copyRef "image_reader" (resolve (d.get? "image_reader"))
  (h2, copyRef)

/-! ### Specification-side rendering of the identity function -/

/-- The identity derivation exactly as the spec words it (section 4.1 and
claim C4): provenance string, then all 2 x dimensionality vertex components
of the bounding box in min-then-max order, each in plain decimal form with
no separators, then the sorted string-coerced labels joined with no
separator, hashed with hex-encoded SHA-1.  This definition follows the
spec text and is compared against the code-side _gen_detection_uuid. -/
def spec_derive_id (p : String) (bbox : AxisAlignedBoundingBox)
    (labels : List String) : String :=
  sha1hex (p ++
    String.mk ((bbox.min_vertex ++ bbox.max_vertex).flatMap
      (fun c => (str_int c).data)) ++
    String.join (sortStrings labels))

/-- The amendment of the spec-side derivation forced by the code: only the
first four of the concatenated min-then-max vertex components take part. -/
def spec_derive_id_first4 (p : String) (bbox : AxisAlignedBoundingBox)
    (labels : List String) : String :=
  sha1hex (p ++
    String.mk (((bbox.min_vertex ++ bbox.max_vertex).take 4).flatMap
      (fun c => (str_int c).data)) ++
    String.join (sortStrings labels))

/-! ### Concrete fixtures for the instantiations below -/

/-- A data element of an accepted content type. -/
def egData : DataElement := ⟨"image/png", "abc123"⟩

/-- A data element of an unaccepted content type. -/
def egBadData : DataElement := ⟨"text/plain", "abc123"⟩

/-- A data element of accepted type that the example reader cannot decode. -/
def egUndecodable : DataElement := ⟨"image/png", "bad"⟩

/-- A two-dimensional bounding box. -/
def egBox2 : AxisAlignedBoundingBox := ⟨[0, 0], [10, 10]⟩

/-- A one-dimensional bounding box. -/
def egBox1 : AxisAlignedBoundingBox := ⟨[3], [7]⟩

/-- A three-dimensional bounding box. -/
def egBox3 : AxisAlignedBoundingBox := ⟨[1, 2, 3], [4, 5, 6]⟩

/-- An example classification map. -/
def egMap : List (String × Rat) := [("cat", (9 : Rat)/10), ("dog", (1 : Rat)/10)]

/-- Example raw-detection output pairs. -/
def egPairs : List (AxisAlignedBoundingBox × List (String × Rat)) :=
  [(egBox2, egMap), (⟨[1, 1], [5, 5]⟩, [("person", 1)])]

/-- A detector whose raw-detection step signals none. -/
def egDetectorNone : ObjectDetector := ⟨["image/png"], fun _ => none⟩

/-- A detector whose raw-detection step yields the example pairs. -/
def egDetectorPairs : ObjectDetector := ⟨["image/png"], fun _ => some egPairs⟩

/-- An example pixel matrix. -/
def egMatrix : PixelMatrix := [[0, 1], [2, 3]]

/-- An example image reader: accepts PNG, decodes everything except the
element with uuid "bad". -/
def egReader : ImageReader :=
  ⟨["image/png"], fun d => d.content_type == "image/png",
   fun d => if d.uuid == "bad" then none else some egMatrix⟩

/-- An example image-matrix detector over the example reader. -/
def egMatrixDetector : ImageMatrixObjectDetector :=
  ⟨egReader, fun _ => egPairs⟩


/-! ### Theorems -/

theorem charListLe_total : ∀ a b, charListLe a b = true ∨ charListLe b a = true
  | [], _ => Or.inl rfl
  | _ :: _, [] => Or.inr rfl
  | a :: as, b :: bs => by
    simp only [charListLe]
    rcases Nat.lt_trichotomy a.toNat b.toNat with h | h | h
    · simp [h]
    · simp only [h, Nat.lt_irrefl, if_false, if_neg]
      exact charListLe_total as bs
    · simp [h, Nat.lt_asymm h]

theorem charListLe_antisymm :
    ∀ {a b}, charListLe a b = true → charListLe b a = true → a = b
  | [], [], _, _ => rfl
  | [], _ :: _, _, h => by simp [charListLe] at h
  | _ :: _, [], h, _ => by simp [charListLe] at h
  | a :: as, b :: bs, h1, h2 => by
    simp only [charListLe] at h1 h2
    rcases Nat.lt_trichotomy a.toNat b.toNat with h | h | h
    · simp [h, Nat.lt_asymm h] at h2
    · simp only [h, Nat.lt_irrefl, if_false] at h1 h2
      rw [Char.ext (UInt32.ext h), charListLe_antisymm h1 h2]
    · simp [h, Nat.lt_asymm h] at h1

theorem charListLe_trans :
    ∀ {a b c}, charListLe a b = true → charListLe b c = true → charListLe a c = true
  | [], _, _, _, _ => rfl
  | _ :: _, [], _, h, _ => by simp [charListLe] at h
  | _ :: _, _ :: _, [], _, h => by simp [charListLe] at h
  | a :: as, b :: bs, c :: cs, h1, h2 => by
    simp only [charListLe] at h1 h2 ⊢
    by_cases hab : a.toNat < b.toNat
    · by_cases hbc : b.toNat < c.toNat
      · rw [if_pos (show a.toNat < c.toNat by omega)]
      · by_cases hcb : c.toNat < b.toNat
        · rw [if_neg hbc, if_pos hcb] at h2; exact absurd h2 (by simp)
        · rw [if_pos (show a.toNat < c.toNat by omega)]
    · by_cases hba : b.toNat < a.toNat
      · rw [if_neg hab, if_pos hba] at h1; exact absurd h1 (by simp)
      · rw [if_neg hab, if_neg hba] at h1
        by_cases hbc : b.toNat < c.toNat
        · rw [if_pos (show a.toNat < c.toNat by omega)]
        · by_cases hcb : c.toNat < b.toNat
          · rw [if_neg hbc, if_pos hcb] at h2; exact absurd h2 (by simp)
          · rw [if_neg hbc, if_neg hcb] at h2
            rw [if_neg (show ¬ a.toNat < c.toNat by omega),
              if_neg (show ¬ c.toNat < a.toNat by omega)]
            exact charListLe_trans h1 h2

theorem strLeP_isTotal : IsTotal String strLeP :=
  ⟨fun a b => charListLe_total a.data b.data⟩

theorem strLeP_isTrans : IsTrans String strLeP :=
  ⟨fun _ _ _ => charListLe_trans⟩

theorem strLeP_isAntisymm : IsAntisymm String strLeP :=
  ⟨fun a b h1 h2 => by
    cases a; cases b
    exact congrArg String.mk (charListLe_antisymm h1 h2)⟩

/-- Two lists of strings that are permutations of one another sort to the
same list: the sorted form is canonical, exactly as for Python `sorted`. -/
theorem sortStrings_perm_congr {l l' : List String} (h : l.Perm l') :
    sortStrings l = sortStrings l' :=
  @List.eq_of_perm_of_sorted String strLeP strLeP_isAntisymm _ _
    (((List.perm_insertionSort strLeP l).trans h).trans
      (List.perm_insertionSort strLeP l').symm)
    (@List.sorted_insertionSort String strLeP _ strLeP_isTotal strLeP_isTrans l)
    (@List.sorted_insertionSort String strLeP _ strLeP_isTotal strLeP_isTrans l')

set_option maxRecDepth 100000 in
/-- Sanity check of the SHA-1 embedding against the standard one-block test
vector for the message "abc". -/
theorem sha1hex_test_vector_abc :
    sha1hex "abc" = "a9993e364706816aba3e25717850c26c9cd0d89d" := by decide

set_option maxRecDepth 100000 in
/-- Sanity check of the SHA-1 embedding against the empty-message test
vector. -/
theorem sha1hex_test_vector_empty :
    sha1hex "" = "da39a3ee5e6b4b0d3255bfef95601890afd80709" := by decide


theorem natDigitsGo_decode : ∀ fuel n, n < fuel → decodeLE (natDigitsGo fuel n) = n
  | 0, _, h => absurd h (Nat.not_lt_zero _)
  | fuel + 1, n, h => by
    simp only [natDigitsGo]
    by_cases h10 : n < 10
    · simp [h10, decodeLE]
    · rw [if_neg h10]
      simp only [decodeLE]
      have hrec : n / 10 < fuel := by
        have := Nat.div_lt_self (by omega : 0 < n) (by omega : 1 < 10)
        omega
      rw [natDigitsGo_decode fuel (n / 10) hrec]
      omega

theorem natDigits_inj {a b : Nat} (h : natDigits a = natDigits b) : a = b := by
  have ha := natDigitsGo_decode (a + 1) a (Nat.lt_succ_self a)
  have hb := natDigitsGo_decode (b + 1) b (Nat.lt_succ_self b)
  rw [natDigits] at h
  rw [natDigits] at h
  rw [h] at ha
  rw [hb] at ha
  exact ha.symm

theorem natDigitsGo_lt10 :
    ∀ fuel n d, d ∈ natDigitsGo fuel n → d < 10
  | 0, _, _, h => absurd h (List.not_mem_nil _)
  | fuel + 1, n, d, h => by
    simp only [natDigitsGo] at h
    by_cases h10 : n < 10
    · simp [h10] at h
      omega
    · rw [if_neg h10] at h
      rcases List.mem_cons.mp h with he | ht
      · omega
      · exact natDigitsGo_lt10 fuel (n / 10) d ht

theorem digitChar_inj_lt :
    ∀ d, d < 10 → ∀ e, e < 10 → digitChar d = digitChar e → d = e := by decide

theorem digitChar_ne_minus : ∀ d, d < 10 → digitChar d ≠ '-' := by decide

theorem map_digitChar_inj :
    ∀ {l l' : List Nat}, (∀ d ∈ l, d < 10) → (∀ d ∈ l', d < 10) →
      l.map digitChar = l'.map digitChar → l = l'
  | [], [], _, _, _ => rfl
  | [], _ :: _, _, _, h => by simp at h
  | _ :: _, [], _, _, h => by simp at h
  | a :: as, b :: bs, hl, hl', h => by
    simp only [List.map_cons, List.cons.injEq] at h
    have ha : a = b := digitChar_inj_lt a (hl a (List.mem_cons_self a as)) b
      (hl' b (List.mem_cons_self b bs)) h.1
    have := map_digitChar_inj (fun d hd => hl d (List.mem_cons_of_mem a hd))
      (fun d hd => hl' d (List.mem_cons_of_mem b hd)) h.2
    rw [ha, this]

theorem natStrChars_inj {a b : Nat} (h : natStrChars a = natStrChars b) :
    a = b := by
  apply natDigits_inj
  have := map_digitChar_inj
    (fun d hd => natDigitsGo_lt10 _ _ d (List.mem_reverse.mp hd))
    (fun d hd => natDigitsGo_lt10 _ _ d (List.mem_reverse.mp hd)) h
  exact List.reverse_injective this

theorem natDigits_ne_nil (n : Nat) : natDigits n ≠ [] := by
  simp only [natDigits, natDigitsGo]
  by_cases h10 : n < 10
  · simp [h10]
  · simp [h10]

theorem natStrChars_head :
    ∀ n : Nat, ∃ d rest, d < 10 ∧ natStrChars n = digitChar d :: rest := by
  intro n
  rcases hrev : (natDigits n).reverse with _ | ⟨d, ds⟩
  · exact absurd (by simpa using congrArg List.reverse hrev) (natDigits_ne_nil n)
  · refine ⟨d, ds.map digitChar, ?_, by simp [natStrChars, hrev]⟩
    exact natDigitsGo_lt10 _ _ d (List.mem_reverse.mp (hrev ▸ List.mem_cons_self d ds))

theorem string_mk_inj {l l' : List Char} (h : String.mk l = String.mk l') :
    l = l' := congrArg String.data h

/-- Python str() on integers is injective: distinct integers have distinct
decimal renderings. -/
theorem str_int_inj : ∀ {i j : Int}, str_int i = str_int j → i = j := by
  intro i j h
  cases i with
  | ofNat a =>
    cases j with
    | ofNat b =>
      simp only [str_int] at h
      exact congrArg Int.ofNat (natStrChars_inj (string_mk_inj h))
    | negSucc b =>
      simp only [str_int] at h
      obtain ⟨d, rest, hd, hchars⟩ := natStrChars_head a
      have h' := string_mk_inj h
      rw [hchars] at h'
      exact absurd (List.head_eq_of_cons_eq h') (digitChar_ne_minus d hd)
  | negSucc a =>
    cases j with
    | ofNat b =>
      simp only [str_int] at h
      obtain ⟨d, rest, hd, hchars⟩ := natStrChars_head b
      have h' := string_mk_inj h
      rw [hchars] at h'
      exact absurd (List.head_eq_of_cons_eq h').symm (digitChar_ne_minus d hd)
    | negSucc b =>
      simp only [str_int] at h
      have h' := string_mk_inj h
      simp only [List.cons.injEq, true_and] at h'
      have hab := natStrChars_inj h'
      have : a = b := by omega
      rw [this]

/-- Sanity check: the decimal rendering matches Python str() on samples. -/
theorem str_int_samples :
    str_int 0 = "0" ∧ str_int 10 = "10" ∧ str_int 1234 = "1234" ∧
      str_int (-56) = "-56" := by decide

/-! ### C1: a none from the raw-detection step -/

/-- C1: the claim states that when the raw-detection step returns null,
the call detect_objects itself returns null and not an empty sequence.
The code violates this: detect_objects is a generator function, so the
call returns a generator object (isSome below), and the internal
"return None" taken when _detect_objects yields none merely terminates the
iteration, so driving the generator observes the empty sequence of yields
(ok []), never a null result.  The no-record-constructed part of the claim
does hold: the run produces no detection or classification element. -/
theorem c1_null_collapsed_to_empty (self : ObjectDetector) (d : DataElement)
    (de_factory : DetectionElementFactory)
    (ce_factory : ClassificationElementFactory)
    (hv : self.is_valid_element d = true)
    (hraw : self._detect_objects d = none) :
    (self.detect_objects d de_factory ce_factory).isSome = true ∧
      self.detect_objects_run d de_factory ce_factory = .ok [] := by
  refine ⟨rfl, ?_⟩
  simp [ObjectDetector.detect_objects_run, ObjectDetector.raise_valid_element,
    hv, hraw]

/-- C1 witness: concrete evaluation on a detector whose raw step returns
none over an accepted element. -/
theorem c1_witness :
    (egDetectorNone.detect_objects egData DFLT_DETECTION_FACTORY
        DFLT_CLASSIFIER_FACTORY).isSome = true ∧
      egDetectorNone.detect_objects_run egData DFLT_DETECTION_FACTORY
        DFLT_CLASSIFIER_FACTORY = .ok [] :=
  c1_null_collapsed_to_empty egDetectorNone egData DFLT_DETECTION_FACTORY
    DFLT_CLASSIFIER_FACTORY (by decide) rfl

/-! ### C2: the validation gate -/

/-- C2: the claim states that an unaccepted content type makes the
detect_objects call raise ValueError synchronously, before any detection
work.  The code places raise_valid_element first in the body, but the body
is a generator: the call itself returns a generator object and raises
nothing (isSome below); the ValueError surfaces only when the generator is
first iterated.  The rest of the claim holds: the error is produced before
the raw-detection step or either factory can contribute, which the
statement expresses by holding for every detector with the given
acceptance set and every factory pair (the result does not depend on
them). -/
theorem c2_validation_error_lazy (self : ObjectDetector) (d : DataElement)
    (de_factory : DetectionElementFactory)
    (ce_factory : ClassificationElementFactory)
    (hv : self.is_valid_element d = false) :
    (self.detect_objects d de_factory ce_factory).isSome = true ∧
      self.detect_objects_run d de_factory ce_factory = .error .valueError := by
  refine ⟨rfl, ?_⟩
  simp [ObjectDetector.detect_objects_run, ObjectDetector.raise_valid_element,
    hv]

/-- C2 witness: concrete evaluation on an element of unaccepted type given
to a detector whose raw step would yield pairs. -/
theorem c2_witness :
    (egDetectorPairs.detect_objects egBadData DFLT_DETECTION_FACTORY
        DFLT_CLASSIFIER_FACTORY).isSome = true ∧
      egDetectorPairs.detect_objects_run egBadData DFLT_DETECTION_FACTORY
        DFLT_CLASSIFIER_FACTORY = .error .valueError :=
  c2_validation_error_lazy egDetectorPairs egBadData DFLT_DETECTION_FACTORY
    DFLT_CLASSIFIER_FACTORY (by decide)

/-! ### C3: totality of the identity function -/

/-- C3 counterexample: the identity function is not total over bounding
boxes of every dimensionality.  On a one-dimensional box the four-
placeholder format call receives only two variadic arguments and raises
IndexError. -/
theorem c3_counterexample :
    _gen_detection_uuid "p" egBox1 ["cat", "dog"] = .error .indexError := by
  decide

theorem format4_ok_of_length :
    ∀ l : List Int, 4 ≤ l.length → ∃ s, format4 l = .ok s
  | _ :: _ :: _ :: _ :: _, _ => ⟨_, rfl⟩
  | [], h => absurd h (by simp)
  | [_], h => absurd h (by simp)
  | [_, _], h => absurd h (by simp)
  | [_, _, _], h => absurd h (by simp)

/-- C3 amended: the identity function is total (returns an identifier and
never raises) for every provenance string and label list, and every
bounding box of dimensionality at least two; the one-dimensional case of
the counterexample is the only failure mode. -/
theorem c3_total_for_dim_ge_two (p : String) (b : AxisAlignedBoundingBox)
    (L : List String) (hmin : 2 ≤ b.min_vertex.length)
    (hmax : 2 ≤ b.max_vertex.length) :
    ∃ s, _gen_detection_uuid p b L = .ok s := by
  obtain ⟨v, hv⟩ := format4_ok_of_length (b.min_vertex ++ b.max_vertex)
    (by simp only [List.length_append]; omega)
  exact ⟨sha1hex (p ++ v ++ String.join (sortStrings L)), by
    simp [_gen_detection_uuid, detection_uuid_hashable, hv, Except.map]⟩

/-- C3 witness: concrete instantiation on a two-dimensional box. -/
theorem c3_witness :
    ∃ s, _gen_detection_uuid "abc123" egBox2 ["dog", "cat"] = .ok s :=
  c3_total_for_dim_ge_two "abc123" egBox2 ["dog", "cat"] (by decide) (by decide)

/-! ### C5: label-order invariance and purity -/

/-- C5: permuting the label collection leaves the derived identifier
unchanged, because the labels are sorted before hashing; purity (same
inputs, same output, on every call) is inherent to the embedding of the
function as a mathematical function of its arguments. -/
theorem c5_label_permutation_invariance (p : String)
    (b : AxisAlignedBoundingBox) {L L' : List String} (hperm : L.Perm L') :
    _gen_detection_uuid p b L = _gen_detection_uuid p b L' := by
  simp [_gen_detection_uuid, detection_uuid_hashable,
    sortStrings_perm_congr hperm]

/-- C5 witness: concrete permutation of a two-label collection. -/
theorem c5_witness :
    _gen_detection_uuid "abc123" egBox2 ["dog", "cat"] =
      _gen_detection_uuid "abc123" egBox2 ["cat", "dog"] :=
  c5_label_permutation_invariance "abc123" egBox2
    (List.Perm.swap "cat" "dog" [])

/-! ### C8: the identifier depends only on provenance, box and key set -/

/-- C8: the identifier assigned to a yielded detection is derived from the
provenance string, the bounding box and the classification map's keys
alone: two maps over the same key set (in any order) with different
probability values produce the same identifier. -/
theorem c8_uuid_depends_only_on_keys (p : String)
    (b : AxisAlignedBoundingBox) (m1 m2 : List (String × Rat))
    (hkeys : (m1.map Prod.fst).Perm (m2.map Prod.fst)) :
    _gen_detection_uuid p b (m1.map Prod.fst) =
      _gen_detection_uuid p b (m2.map Prod.fst) := by
  simp [_gen_detection_uuid, detection_uuid_hashable,
    sortStrings_perm_congr hkeys]

/-- C8 witness: two single-key maps with different probabilities. -/
theorem c8_witness :
    _gen_detection_uuid "abc123" egBox2
        ([("cat", (9 : Rat)/10)].map Prod.fst) =
      _gen_detection_uuid "abc123" egBox2
        ([("cat", (1 : Rat)/10)].map Prod.fst) :=
  c8_uuid_depends_only_on_keys "abc123" egBox2 [("cat", (9 : Rat)/10)]
    [("cat", (1 : Rat)/10)] (List.Perm.refl _)

/-! ### C9: delegation of the image-matrix specialization -/

/-- C9: the matrix specialization's raw-detection step returns none exactly
when the image reader's load_as_matrix returns none, otherwise passes the
decoded matrix unchanged to _detect_objects_matrix; and its content-type
and validity queries are the image reader's. -/
theorem c9_matrix_delegation (self : ImageMatrixObjectDetector)
    (d : DataElement) :
    (self._detect_objects d = none ↔
        self.image_reader.load_as_matrix d = none) ∧
    (∀ mat, self.image_reader.load_as_matrix d = some mat →
        self._detect_objects d = some (self._detect_objects_matrix mat)) ∧
    self.valid_content_types = self.image_reader.valid_content_types ∧
    self.is_valid_element d = self.image_reader.is_valid_element d := by
  refine ⟨?_, ?_, rfl, rfl⟩
  · cases hm : self.image_reader.load_as_matrix d <;>
      simp [ImageMatrixObjectDetector._detect_objects, hm]
  · intro mat hm
    simp [ImageMatrixObjectDetector._detect_objects, hm]

/-- C9 witness: the example matrix detector decodes the good element and
propagates the none of the undecodable one. -/
theorem c9_witness :
    egMatrixDetector._detect_objects egData =
        some (egMatrixDetector._detect_objects_matrix egMatrix) ∧
      egMatrixDetector._detect_objects egUndecodable = none :=
  ⟨(c9_matrix_delegation egMatrixDetector egData).2.1 egMatrix rfl,
   (c9_matrix_delegation egMatrixDetector egUndecodable).1.mpr rfl⟩

/-! ### C4: the concatenation actually hashed -/

set_option maxRecDepth 200000 in
/-- C4 counterexample: the identifier is not the digest of the
concatenation of all 2 x dimensionality vertex components.  On a
one-dimensional box the code raises IndexError where the spec-side
derivation is defined, and on a three-dimensional box the code hashes only
the first four of the six components, giving a different digest than the
spec-side derivation. -/
theorem c4_counterexample :
    _gen_detection_uuid "abc123" egBox1 ["cat"] ≠
        .ok (spec_derive_id "abc123" egBox1 ["cat"]) ∧
      _gen_detection_uuid "a" egBox3 [] ≠
        .ok (spec_derive_id "a" egBox3 []) := by
  constructor
  · decide
  · decide

theorem format4_eq_take4 (c0 c1 c2 c3 : Int) (rest : List Int) :
    format4 (c0 :: c1 :: c2 :: c3 :: rest) =
      .ok (String.mk (((c0 :: c1 :: c2 :: c3 :: rest).take 4).flatMap
        (fun c => (str_int c).data))) := by
  simp [format4]

/-- C4 amended: for every bounding box with at least four concatenated
vertex components (dimensionality at least two in particular), the
identifier equals the hex SHA-1 digest of the UTF-8 bytes of the
provenance string, the first four min-then-max vertex components in plain
decimal form with no separators, and the sorted string-coerced labels
joined with no separator; components beyond the fourth are ignored. -/
theorem c4_uuid_matches_first_four_spec (p : String)
    (b : AxisAlignedBoundingBox) (L : List String)
    (h4 : 4 ≤ (b.min_vertex ++ b.max_vertex).length) :
    _gen_detection_uuid p b L = .ok (spec_derive_id_first4 p b L) := by
  rcases hl : b.min_vertex ++ b.max_vertex with
    _ | ⟨c0, _ | ⟨c1, _ | ⟨c2, _ | ⟨c3, rest⟩⟩⟩⟩ <;> rw [hl] at h4
  · simp at h4
  · simp at h4
  · simp at h4
  · simp at h4
  · simp only [_gen_detection_uuid, detection_uuid_hashable,
      spec_derive_id_first4, hl, format4_eq_take4, Except.map]

/-- C4 witness: concrete two-dimensional instantiation of the amended
refinement. -/
theorem c4_witness :
    _gen_detection_uuid "abc123" egBox2 ["dog", "cat"] =
      .ok (spec_derive_id_first4 "abc123" egBox2 ["dog", "cat"]) :=
  c4_uuid_matches_first_four_spec "abc123" egBox2 ["dog", "cat"] (by decide)

/-! ### C6: sensitivity of the identifier -/

/-- C6 counterexample: distinct label sets need not give distinct
pre-digest concatenation strings, because the sorted labels are joined
with no separator: the sets containing "ab","c" and "a","bc" concatenate
to the same string and therefore receive the same identifier, not merely a
digest collision. -/
theorem c6_counterexample :
    detection_uuid_hashable "abc123" egBox2 ["ab", "c"] =
        detection_uuid_hashable "abc123" egBox2 ["a", "bc"] ∧
      _gen_detection_uuid "abc123" egBox2 ["ab", "c"] =
        _gen_detection_uuid "abc123" egBox2 ["a", "bc"] ∧
      (["ab", "c"] : List String) ≠ ["a", "bc"] :=
  ⟨by decide, congrArg (Except.map sha1hex) (by decide), by decide⟩

theorem str_int_append_cancel {x y : Int} {post : List Char}
    (h : (str_int x).data ++ post = (str_int y).data ++ post) : x = y :=
  str_int_inj (congrArg String.mk (List.append_cancel_right h))

/-- C6 amended: changing the provenance string, or any single one of the
first four concatenated min-then-max vertex components, changes the
pre-digest concatenation string (and hence the identifier up to collisions
of the digest); the original claim's label clause is dropped, since
distinct label sets can produce the identical pre-digest string, and
components beyond the fourth do not participate at all. -/
theorem c6_sensitivity_amended :
    (∀ (p p' : String) (b : AxisAlignedBoundingBox) (L : List String)
        (s s' : String),
        detection_uuid_hashable p b L = .ok s →
        detection_uuid_hashable p' b L = .ok s' → p ≠ p' → s ≠ s') ∧
    (∀ (p : String) (b b' : AxisAlignedBoundingBox) (u w : List Int)
        (x x' : Int) (L : List String) (s s' : String),
        b.min_vertex ++ b.max_vertex = u ++ x :: w →
        b'.min_vertex ++ b'.max_vertex = u ++ x' :: w →
        u.length ≤ 3 → x ≠ x' →
        detection_uuid_hashable p b L = .ok s →
        detection_uuid_hashable p b' L = .ok s' → s ≠ s') := by
  constructor
  · intro p p' b L s s' h1 h2 hne heq
    apply hne
    unfold detection_uuid_hashable at h1 h2
    rcases hf : format4 (b.min_vertex ++ b.max_vertex) with e | v
    · rw [hf] at h1
      exact absurd h1 (by simp)
    · rw [hf] at h1 h2
      have hs := Except.ok.inj h1
      have hs' := Except.ok.inj h2
      rw [← hs, ← hs'] at heq
      have hd := congrArg String.data heq
      simp only [String.data_append] at hd
      exact congrArg String.mk
        (List.append_cancel_right (List.append_cancel_right hd))
  · intro p b b' u w x x' L s s' hb hb' hu hxx h1 h2 heq
    apply hxx
    unfold detection_uuid_hashable at h1 h2
    rw [hb] at h1
    rw [hb'] at h2
    rcases u with _ | ⟨u0, _ | ⟨u1, _ | ⟨u2, _ | ⟨u3, urest⟩⟩⟩⟩
    · rcases w with _ | ⟨w0, _ | ⟨w1, _ | ⟨w2, wrest⟩⟩⟩
      · simp [format4] at h1
      · simp [format4] at h1
      · simp [format4] at h1
      · simp only [List.nil_append, format4] at h1 h2
        have hs := Except.ok.inj h1
        have hs' := Except.ok.inj h2
        rw [← hs, ← hs'] at heq
        have hd := congrArg String.data heq
        simp only [String.data_append] at hd
        have hA := List.append_cancel_left (List.append_cancel_right hd)
        exact str_int_inj (congrArg String.mk
          (List.append_cancel_right (List.append_cancel_right
            (List.append_cancel_right hA))))
    · rcases w with _ | ⟨w0, _ | ⟨w1, wrest⟩⟩
      · simp [format4] at h1
      · simp [format4] at h1
      · simp only [List.cons_append, List.nil_append, format4] at h1 h2
        have hs := Except.ok.inj h1
        have hs' := Except.ok.inj h2
        rw [← hs, ← hs'] at heq
        have hd := congrArg String.data heq
        simp only [String.data_append] at hd
        have hA := List.append_cancel_left (List.append_cancel_right hd)
        have hB := List.append_cancel_right (List.append_cancel_right hA)
        exact str_int_inj (congrArg String.mk (List.append_cancel_left hB))
    · rcases w with _ | ⟨w0, wrest⟩
      · simp [format4] at h1
      · simp only [List.cons_append, List.nil_append, format4] at h1 h2
        have hs := Except.ok.inj h1
        have hs' := Except.ok.inj h2
        rw [← hs, ← hs'] at heq
        have hd := congrArg String.data heq
        simp only [String.data_append] at hd
        have hA := List.append_cancel_left (List.append_cancel_right hd)
        have hB := List.append_cancel_right hA
        exact str_int_inj (congrArg String.mk (List.append_cancel_left hB))
    · simp only [List.cons_append, List.nil_append, format4] at h1 h2
      have hs := Except.ok.inj h1
      have hs' := Except.ok.inj h2
      rw [← hs, ← hs'] at heq
      have hd := congrArg String.data heq
      simp only [String.data_append] at hd
      have hA := List.append_cancel_left (List.append_cancel_right hd)
      exact str_int_inj (congrArg String.mk (List.append_cancel_left hA))
    · simp at hu

/-- C6 witness: concrete instantiations of both sensitivity conjuncts: a
changed provenance string and a changed second vertex component. -/
theorem c6_witness :
    ("abc123001010" : String) ≠ "zzz001010" ∧
      ("abc123001010" : String) ≠ "abc123051010" :=
  ⟨c6_sensitivity_amended.1 "abc123" "zzz" egBox2 [] "abc123001010"
      "zzz001010" (by decide) (by decide) (by decide),
   c6_sensitivity_amended.2 "abc123" egBox2 ⟨[0, 5], [10, 10]⟩ [0] [10, 10]
      0 5 [] "abc123001010" "abc123051010" (by decide) (by decide)
      (by decide) (by decide) (by decide) (by decide)⟩

/-! ### C7: assembly completeness and order -/

theorem detect_objects_loop_spec (de_uuid : String)
    (de_factory : DetectionElementFactory)
    (ce_factory : ClassificationElementFactory)
    (hce : ∀ t u, (ce_factory.new_classification t u).type_name = t ∧
        (ce_factory.new_classification t u).uuid = u)
    (hde : ∀ u, (de_factory.new_detection u).uuid = u) :
    ∀ ps : List (AxisAlignedBoundingBox × List (String × Rat)),
      (∀ pr ∈ ps,
        (_gen_detection_uuid de_uuid pr.1 (pr.2.map Prod.fst)).isOk = true) →
      ∃ l, detect_objects_loop de_uuid de_factory ce_factory ps = .ok l ∧
        l.length = ps.length ∧
        ∀ i (hi : i < l.length) (hip : i < ps.length),
          _gen_detection_uuid de_uuid (ps.get ⟨i, hip⟩).1
              ((ps.get ⟨i, hip⟩).2.map Prod.fst) = .ok (l.get ⟨i, hi⟩).uuid ∧
          (l.get ⟨i, hi⟩).detection = some ((ps.get ⟨i, hip⟩).1,
            ⟨"object detection classification", (l.get ⟨i, hi⟩).uuid,
             (ps.get ⟨i, hip⟩).2⟩)
  | [], _ => ⟨[], rfl, rfl, fun _ hi _ => absurd hi (by simp)⟩
  | (bbox, c_map) :: rest, hok => by
    have hhead := hok (bbox, c_map) (List.mem_cons_self _ _)
    rcases hu : _gen_detection_uuid de_uuid bbox (c_map.map Prod.fst)
      with e | u
    · rw [hu] at hhead
      simp [Except.isOk, Except.toBool] at hhead
    · obtain ⟨l, hl, hlen, hprops⟩ := detect_objects_loop_spec de_uuid
        de_factory ce_factory hce hde rest
        (fun pr hpr => hok pr (List.mem_cons_of_mem _ hpr))
      have hcee : (ce_factory.new_classification
          "object detection classification" u).set_classification c_map =
          ⟨"object detection classification", u, c_map⟩ := by
        have hc := hce "object detection classification" u
        simp [ClassificationElement.set_classification]
        exact ⟨hc.1, hc.2⟩
      have hdee : ((de_factory.new_detection u).set_detection bbox
          ⟨"object detection classification", u, c_map⟩) =
          ⟨u, some (bbox, ⟨"object detection classification", u, c_map⟩)⟩ := by
        simp [DetectionElement.set_detection]
        exact hde u
      refine ⟨⟨u, some (bbox,
          ⟨"object detection classification", u, c_map⟩)⟩ :: l, ?_, by
            simp [hlen], ?_⟩
      · simp only [detect_objects_loop, hu, hl, hcee, hdee]
      · intro i hi hip
        cases i with
        | zero => exact ⟨hu, rfl⟩
        | succ j =>
          have hj := hprops j (by simpa using hi) (by simpa using hip)
          simpa using hj

/-- C7: for every pair yielded by the raw-detection step, exactly one
detection element is yielded, in the same order, populated via
set_detection with the input bounding box and a classification element
whose stored map is the input map, whose uuid equals the detection
element's uuid (both derived by the identity function), and whose type tag
is the constant string.  The factory hypotheses state the section-6
contract that a factory builds its record under the requested identifier
and type tag; they hold for the default memory factories. -/
theorem c7_assembly_completeness (self : ObjectDetector) (d : DataElement)
    (de_factory : DetectionElementFactory)
    (ce_factory : ClassificationElementFactory)
    (ps : List (AxisAlignedBoundingBox × List (String × Rat)))
    (hv : self.is_valid_element d = true)
    (hraw : self._detect_objects d = some ps)
    (hce : ∀ t u, (ce_factory.new_classification t u).type_name = t ∧
        (ce_factory.new_classification t u).uuid = u)
    (hde : ∀ u, (de_factory.new_detection u).uuid = u)
    (hok : ∀ pr ∈ ps,
        (_gen_detection_uuid d.uuid pr.1 (pr.2.map Prod.fst)).isOk = true) :
    ∃ l, self.detect_objects_run d de_factory ce_factory = .ok l ∧
      l.length = ps.length ∧
      ∀ i (hi : i < l.length) (hip : i < ps.length),
        _gen_detection_uuid d.uuid (ps.get ⟨i, hip⟩).1
            ((ps.get ⟨i, hip⟩).2.map Prod.fst) = .ok (l.get ⟨i, hi⟩).uuid ∧
        (l.get ⟨i, hi⟩).detection = some ((ps.get ⟨i, hip⟩).1,
          ⟨"object detection classification", (l.get ⟨i, hi⟩).uuid,
           (ps.get ⟨i, hip⟩).2⟩) := by
  obtain ⟨l, hl, hlen, hprops⟩ := detect_objects_loop_spec d.uuid de_factory
    ce_factory hce hde ps hok
  refine ⟨l, ?_, hlen, hprops⟩
  simp only [ObjectDetector.detect_objects_run,
    ObjectDetector.raise_valid_element, hv, if_true, hraw]
  exact hl

/-- C7 witness: concrete two-pair run through the default factories. -/
theorem c7_witness :
    ∃ l, egDetectorPairs.detect_objects_run egData DFLT_DETECTION_FACTORY
        DFLT_CLASSIFIER_FACTORY = .ok l ∧
      l.length = egPairs.length ∧
      ∀ i (hi : i < l.length) (hip : i < egPairs.length),
        _gen_detection_uuid egData.uuid (egPairs.get ⟨i, hip⟩).1
            ((egPairs.get ⟨i, hip⟩).2.map Prod.fst) =
          .ok (l.get ⟨i, hi⟩).uuid ∧
        (l.get ⟨i, hi⟩).detection = some ((egPairs.get ⟨i, hip⟩).1,
          ⟨"object detection classification", (l.get ⟨i, hi⟩).uuid,
           (egPairs.get ⟨i, hip⟩).2⟩) :=
  c7_assembly_completeness egDetectorPairs egData DFLT_DETECTION_FACTORY
    DFLT_CLASSIFIER_FACTORY egPairs (by decide) rfl
    (fun _ _ => ⟨rfl, rfl⟩) (fun _ => rfl) (by decide)

/-! ### C10: from_config does not mutate the caller's dictionary -/

theorem mem_lt_freshRef {α : Type} :
    ∀ (h : Heap α) (p : Ref × PyDict α), p ∈ h → p.1 < freshRef h
  | [], _, hp => absurd hp (List.not_mem_nil _)
  | q :: t, p, hp => by
    simp only [freshRef, List.foldr_cons]
    rcases List.mem_cons.mp hp with he | ht
    · subst he
      exact Nat.lt_of_lt_of_le (Nat.lt_succ_self _) (le_max_left _ _)
    · have := mem_lt_freshRef t p ht
      simp only [freshRef] at this
      exact Nat.lt_of_lt_of_le this (le_max_right _ _)

theorem heapGet_isSome_lt_freshRef {α : Type} {h : Heap α} {r : Ref}
    (hr : (heapGet h r).isSome = true) : r < freshRef h := by
  unfold heapGet at hr
  rcases hf : h.find? (fun p => p.1 == r) with _ | p
  · rw [hf] at hr
    simp at hr
  · have hmem := List.mem_of_find?_eq_some hf
    have hpr := List.find?_some hf
    have hpe : p.1 = r := by simpa using hpr
    have hlt := mem_lt_freshRef h p hmem
    rwa [hpe] at hlt

theorem heapGet_cons_ne {α : Type} (h : Heap α) (r c : Ref) (d : PyDict α)
    (hne : c ≠ r) : heapGet ((c, d) :: h) r = heapGet h r := by
  unfold heapGet
  rw [List.find?_cons_of_neg]
  simp [hne]

theorem heapGet_cons_self {α : Type} (h : Heap α) (c : Ref) (d : PyDict α) :
    heapGet ((c, d) :: h) c = some d := by
  unfold heapGet
  rw [List.find?_cons_of_pos]
  simp

theorem heapSet_eq_of_not_mem {α : Type} (h : Heap α) (c : Ref) (k : String)
    (v : α) (hfr : ∀ p ∈ h, p.1 ≠ c) : heapSet h c k v = h := by
  induction h with
  | nil => rfl
  | cons q t ih =>
    show (if q.1 == c then (q.1, q.2.set k v) else q) :: heapSet t c k v =
      q :: t
    rw [if_neg (by simp [hfr q (List.mem_cons_self q t)]),
      ih (fun p hp => hfr p (List.mem_cons_of_mem q hp))]

/-- C10: from_config leaves the caller's dictionary untouched: it
shallow-copies the dictionary into a fresh reference, replaces the
image_reader entry of the copy with the resolved reader, and hands the
copy to the super constructor; the dictionary behind the caller's
reference compares equal, entry for entry, to what it was before the
call. -/
theorem c10_from_config_no_mutation {α : Type} (h : Heap α) (r : Ref)
    (resolve : Option α → α) (hr : (heapGet h r).isSome = true) :
    heapGet (ImageMatrixObjectDetector.from_config h r resolve).1 r =
        heapGet h r ∧
      (ImageMatrixObjectDetector.from_config h r resolve).2 ≠ r ∧
      heapGet (ImageMatrixObjectDetector.from_config h r resolve).1
          (ImageMatrixObjectDetector.from_config h r resolve).2 =
        some (((heapGet h r).getD ⟨[]⟩).set "image_reader"
          (resolve (((heapGet h r).getD ⟨[]⟩).get? "image_reader"))) := by
  have hlt := heapGet_isSome_lt_freshRef hr
  have hne : freshRef h ≠ r := fun he => Nat.lt_irrefl r (he ▸ hlt)
  have hset : ∀ v : α,
      heapSet ((freshRef h, (heapGet h r).getD ⟨[]⟩) :: h) (freshRef h)
          "image_reader" v =
        (freshRef h, ((heapGet h r).getD ⟨[]⟩).set "image_reader" v) :: h := by
    intro v
    show (if (freshRef h == freshRef h) then _ else _) :: heapSet h _ _ _ = _
    rw [if_pos (by simp), heapSet_eq_of_not_mem h _ _ _
      (fun p hp hpe => absurd (hpe ▸ mem_lt_freshRef h p hp)
        (Nat.lt_irrefl _))]
  refine ⟨?_, ?_, ?_⟩
  · show heapGet (heapSet ((freshRef h, _) :: h) (freshRef h) _ _) r = _
    rw [hset, heapGet_cons_ne h r (freshRef h) _ hne]
  · exact hne
  · show heapGet (heapSet ((freshRef h, _) :: h) (freshRef h) _ _)
        (freshRef h) = _
    rw [hset, heapGet_cons_self]

/-- C10 witness: a concrete one-dictionary heap. -/
theorem c10_witness :
    heapGet (ImageMatrixObjectDetector.from_config
          [((0 : Ref), (⟨[("image_reader", (7 : Nat)), ("other", 5)]⟩ :
            PyDict Nat))] 0 (fun _ => 9)).1 0 =
        heapGet [((0 : Ref), (⟨[("image_reader", (7 : Nat)),
          ("other", 5)]⟩ : PyDict Nat))] 0 ∧
      (ImageMatrixObjectDetector.from_config
          [((0 : Ref), (⟨[("image_reader", (7 : Nat)), ("other", 5)]⟩ :
            PyDict Nat))] 0 (fun _ => 9)).2 ≠ 0 ∧
      heapGet (ImageMatrixObjectDetector.from_config
            [((0 : Ref), (⟨[("image_reader", (7 : Nat)), ("other", 5)]⟩ :
              PyDict Nat))] 0 (fun _ => 9)).1
          (ImageMatrixObjectDetector.from_config
            [((0 : Ref), (⟨[("image_reader", (7 : Nat)), ("other", 5)]⟩ :
              PyDict Nat))] 0 (fun _ => 9)).2 =
        some (((heapGet [((0 : Ref), (⟨[("image_reader", (7 : Nat)),
              ("other", 5)]⟩ : PyDict Nat))] 0).getD ⟨[]⟩).set
          "image_reader" ((fun _ => 9) ((((heapGet [((0 : Ref),
              (⟨[("image_reader", (7 : Nat)), ("other", 5)]⟩ :
              PyDict Nat))] 0).getD ⟨[]⟩)).get? "image_reader"))) :=
  c10_from_config_no_mutation
    [((0 : Ref), (⟨[("image_reader", (7 : Nat)), ("other", 5)]⟩ :
      PyDict Nat))] 0 (fun _ => 9) (by decide)
